import Mathlib

/-!
# Verification of the MediFind multi-stage facility search (`get_hospitals.py`)

Shallow embedding of the core module `get_hospitals.py`.  External services
(the Overpass spatial backend, the Nominatim forward/reverse geocoder and the
`geodesic` distance function) are modelled as an abstract `Backend` of pure
oracles; fallible calls return `Except Unit`.  Python `float` coordinates are
modelled as `Rat`.  Process-wide mutable state (the two caches) is threaded
explicitly through a `GeoState`, which also records a trace of outbound
service invocations so that claims about "which service was invoked" are
statable.
-/

namespace MediFind

/-- An OSM node as returned by the spatial backend: a tag mapping plus
coordinates (`result.nodes` elements in the source). -/
structure Node where
  tags : List (String × String)
  lat : Rat
  lon : Rat
deriving DecidableEq

/-- The output facility record built by `node_to_medical_facility`.
`address` is `none` when the Python dict holds `None`; `distance` is `none`
when the Python dict holds `None`. -/
structure Facility where
  name : String
  type : String
  lat : Rat
  lon : Rat
  address : Option String
  found_in : String
  distance : Option Rat
deriving DecidableEq

/-- Outbound service invocations, recorded for claims about which external
calls a search performs.  `areaQuery`/`bboxQuery`/`aroundQuery` are
`api.query` calls of the three query shapes; `forwardCall` is an actual
(cache-missing) call to `geocode`; `revCall` an actual call to
`reverse_geocode`. -/
inductive Event where
  | areaQuery (areaName parentArea : String)
  | bboxQuery (lat lon : Rat)
  | aroundQuery (radius : Nat) (lat lon : Rat)
  | forwardCall (addr : String)
  | revCall (lat lon : Rat)
deriving DecidableEq

def Event.isForwardCall : Event → Bool
  | .forwardCall _ => true
  | _ => false

def Event.isBboxQuery : Event → Bool
  | .bboxQuery _ _ => true
  | _ => false

def Event.isAroundQuery : Event → Bool
  | .aroundQuery _ _ _ => true
  | _ => false

/-- Process-wide mutable state of the module: `coords_cache`, `reverse_cache`
and the invocation trace (oldest first). -/
structure GeoState where
  coordsCache : List (String × (Rat × Rat))
  revCache : List ((Rat × Rat) × String)
  trace : List Event
deriving DecidableEq

def GeoState.push (s : GeoState) (e : Event) : GeoState :=
  { s with trace := s.trace ++ [e] }

/-- The external collaborators: the three Overpass query shapes (keyed by the
parameters interpolated into the query string), the forward geocoder
(`geolocator.geocode`: `.ok none` = no match, `.error` = raised), the reverse
geocoder (`geolocator.reverse`: `.ok none` = no location, `.error` = raised)
and `geodesic(p, q).kilometers`. -/
structure Backend where
  areaNodes : String → String → Except Unit (List Node)
  bboxNodes : Rat → Rat → Rat → Rat → Except Unit (List Node)
  aroundNodes : Nat → Rat → Rat → Except Unit (List Node)
  geocodeAddr : String → Except Unit (Option (Rat × Rat))
  revGeocode : Rat × Rat → Except Unit (Option String)
  geodesicKm : Rat × Rat → Rat × Rat → Rat

/-- Association-list lookup (first binding wins), used for the tag dict and
the two caches. -/
def alookup {α β : Type} [DecidableEq α] : List (α × β) → α → Option β
  | [], _ => none
  | (k, v) :: t, a => if k = a then some v else alookup t a

/-- Python truthiness of `tags.get(k)`: `None` and `""` are falsy. -/
def truthyStr : Option String → Option String
  | some s => if s = "" then none else some s
  | none => none

/-- Python truthiness of an optional float: `None` and `0.0` are falsy
(`if ref_lat and ref_lon:`). -/
def isTruthy (o : Option Rat) : Bool :=
  match o with
  | none => false
  | some q => decide (q ≠ 0)

/-- First pass of `node_to_medical_facility` for one node: the address
derived from tags — `addr:full` if truthy, else the comma-join of the truthy
components, else `None`. -/
def derivedAddress (n : Node) : Option String :=
  match truthyStr (alookup n.tags "addr:full") with
  | some a => some a
  | none =>
    let components :=
      ["addr:housenumber", "addr:street", "addr:city", "addr:state",
       "addr:postcode"].filterMap (fun k => truthyStr (alookup n.tags k))
    if components.isEmpty then none else some (String.intercalate ", " components)

/-- `node.tags.get("healthcare", node.tags.get("amenity", "Unknown"))`
(plain `get` with default: no truthiness here). -/
def facilityType (n : Node) : String :=
  (alookup n.tags "healthcare").getD ((alookup n.tags "amenity").getD "Unknown")

/-- The facility dict built in the first pass of `node_to_medical_facility`.
`distance` is computed only when both reference coordinates are truthy
(`if ref_lat and ref_lon:` — Python truthiness, so `0.0` counts as absent). -/
def mkFacility (b : Backend) (found_in : String) (ref_lat ref_lon : Option Rat)
    (n : Node) : Facility :=
  { name := (alookup n.tags "name").getD "Unknown"
    type := facilityType n
    lat := n.lat
    lon := n.lon
    address := derivedAddress n
    found_in := found_in
    distance :=
      if isTruthy ref_lat && isTruthy ref_lon then
        some (b.geodesicKm (ref_lat.getD 0, ref_lon.getD 0) (n.lat, n.lon))
      else none }

/-- The synthesized fallback address `f"Coordinates: ({lat}, {lon})"`. -/
def coordString (lat lon : Rat) : String :=
  "Coordinates: (" ++ toString lat ++ ", " ++ toString lon ++ ")"

/-- `fetch_reverse_geocode(coords)`: answer from `reverse_cache` when
present; otherwise invoke the reverse geocoder, caching the resolved address,
the `"Address not found"` placeholder, or — when the call raises — the
synthesized coordinate string.  Always returns `(key, address)` with
`key = coords`. -/
def fetch_reverse_geocode (b : Backend) (s : GeoState) (coords : Rat × Rat) :
    ((Rat × Rat) × String) × GeoState :=
  match alookup s.revCache coords with
  | some a => ((coords, a), s)
  | none =>
    match b.revGeocode coords with
    | .ok loc =>
      let address := match loc with | some a => a | none => "Address not found"
      ((coords, address),
        { s with revCache := (coords, address) :: s.revCache,
                 trace := s.trace ++ [.revCall coords.1 coords.2] })
    | .error _ =>
      let address := coordString coords.1 coords.2
      ((coords, address),
        { s with revCache := (coords, address) :: s.revCache,
                 trace := s.trace ++ [.revCall coords.1 coords.2] })

/-- Application of one completed reverse-geocode result: the source walks the
facility list and sets the address of the FIRST facility whose coordinate
pair equals the key, then `break`s. -/
def applyResult : List Facility → Rat × Rat → String → List Facility
  | [], _, _ => []
  | f :: t, key, address =>
    if (f.lat, f.lon) = key then { f with address := some address } :: t
    else f :: applyResult t key address

/-- Second pass of `node_to_medical_facility`: fetch each queued coordinate
pair and apply its result.  The source dispatches the fetches on a worker
pool and applies them in completion order; since results for equal keys carry
equal addresses and results for distinct keys update distinct positions, the
final facility list is the same for every completion order, so the fold over
submission order is a faithful model of the observable outcome. -/
def geocodePass (b : Backend) : GeoState → List (Rat × Rat) → List Facility →
    List Facility × GeoState
  | s, [], fs => (fs, s)
  | s, c :: cs, fs =>
    let r := fetch_reverse_geocode b s c
    geocodePass b r.2 cs (applyResult fs r.1.1 r.1.2)

/-- `node_to_medical_facility(nodes, found_in, ref_lat, ref_lon)`: build the
facility dicts, then reverse-geocode exactly the nodes whose derived address
is `None` (the source appends those coordinates while iterating; this equals
the filter-then-map below). -/
def node_to_medical_facility (b : Backend) (s : GeoState) (nodes : List Node)
    (found_in : String) (ref_lat ref_lon : Option Rat) :
    List Facility × GeoState :=
  let facilities := nodes.map (mkFacility b found_in ref_lat ref_lon)
  let coords_to_geocode :=
    (nodes.filter (fun n => (derivedAddress n).isNone)).map (fun n => (n.lat, n.lon))
  geocodePass b s coords_to_geocode facilities

/-- `query_hospitals_in_area(api, area_name, parent_area)`: issue the
named-area query; on success enrich the nodes (no reference point), on any
exception return `[]`. -/
def query_hospitals_in_area (b : Backend) (s : GeoState)
    (area_name parent_area : String) : List Facility × GeoState :=
  let s1 := s.push (.areaQuery area_name parent_area)
  match b.areaNodes area_name parent_area with
  | .ok nodes => node_to_medical_facility b s1 nodes area_name none none
  | .error _ => ([], s1)

/-- `query_hospitals_in_bbox(api, lat, lon, delta=0.045)`: box of half-width
`delta` degrees, enriched with the centre as reference point. -/
def query_hospitals_in_bbox (b : Backend) (s : GeoState)
    (lat lon delta : Rat) : List Facility × GeoState :=
  let s1 := s.push (.bboxQuery lat lon)
  match b.bboxNodes (lat - delta) (lon - delta) (lat + delta) (lon + delta) with
  | .ok nodes => node_to_medical_facility b s1 nodes "bounding box" (some lat) (some lon)
  | .error _ => ([], s1)

/-- The sort key of the radius stage, `h["distance"] or float('inf')`:
`None` AND `0.0` are falsy in Python, so both coerce to `+inf`, modelled as
`none`. -/
def pyKey (h : Facility) : Option Rat :=
  match h.distance with
  | none => none
  | some d => if d = 0 then none else some d

/-- Comparison on the coerced keys (`none` = `+inf`, greatest). -/
def keyLe (a c : Facility) : Bool :=
  match pyKey a, pyKey c with
  | _, none => true
  | none, some _ => false
  | some x, some y => decide (x ≤ y)

/-- Stable insertion of a facility into a list already sorted by the coerced
key: placed before the first element whose key is ≥ its own, so an element
never jumps ahead of an earlier-listed element with an equal key. -/
def insertByKey (f : Facility) : List Facility → List Facility
  | [] => [f]
  | g :: t => if keyLe f g then f :: g :: t else g :: insertByKey f t

/-- `hospitals.sort(key=lambda h: h["distance"] or float('inf'))` — Python's
stable sort by the coerced key, modelled as a stable insertion sort (any two
stable sorts with the same key agree on every input). -/
def pySort : List Facility → List Facility
  | [] => []
  | f :: t => insertByKey f (pySort t)

/-- The label `f"within {radius / 1000} km"` (the source renders the float
`5.0`; the model renders the integer kilometre count). -/
def withinLabel (radius : Nat) : String :=
  "within " ++ toString (radius / 1000) ++ " km"

/-- `query_hospitals_around(api, lat, lon, radius)`: radius query, enriched
with the centre as reference point, then sorted by the coerced distance key;
`[]` on any exception. -/
def query_hospitals_around (b : Backend) (s : GeoState)
    (lat lon : Rat) (radius : Nat) : List Facility × GeoState :=
  let s1 := s.push (.aroundQuery radius lat lon)
  match b.aroundNodes radius lat lon with
  | .ok nodes =>
    let r := node_to_medical_facility b s1 nodes (withinLabel radius) (some lat) (some lon)
    (pySort r.1, r.2)
  | .error _ => ([], s1)

/-- `f"{area_name}, {district}, {state}, {country}"`. -/
def fullAddress (area_name district state country : String) : String :=
  area_name ++ ", " ++ district ++ ", " ++ state ++ ", " ++ country

/-- `get_coords(area_name, district, state, country)`: answer from
`coords_cache` when present; otherwise invoke the forward geocoder.  Only a
successful match is cached — a no-match or a raised exception returns `None`
and caches nothing. -/
def get_coords (b : Backend) (s : GeoState)
    (area_name district state country : String) :
    Option (Rat × Rat) × GeoState :=
  let full := fullAddress area_name district state country
  match alookup s.coordsCache full with
  | some c => (some c, s)
  | none =>
    let s1 := s.push (.forwardCall full)
    match b.geocodeAddr full with
    | .ok (some c) => (some c, { s1 with coordsCache := (full, c) :: s1.coordsCache })
    | .ok none => (none, s1)
    | .error _ => (none, s1)

/-- Substring test on character lists: some suffix of the haystack starts
with the needle (the empty needle is a substring of everything). -/
def listSubstr (needle : List Char) : List Char → Bool
  | [] => needle.isEmpty
  | c :: t => needle.isPrefixOf (c :: t) || listSubstr needle t

/-- Python `needle in hay` on strings: substring test. -/
def pyIn (needle hay : String) : Bool :=
  listSubstr needle.data hay.data

/-- Python `str.lower()` (character-wise lowering). -/
def pyLower (s : String) : String :=
  ⟨s.data.map Char.toLower⟩

/-- The retention predicate of `filter_by_address`:
`area_name.lower() in h["address"].lower()` for an address known to be a
string. -/
def addressMatches (area_name addr : String) : Bool :=
  pyIn (pyLower area_name) (pyLower addr)

/-- `filter_by_address(hospitals, area_name)`: the list comprehension keeps
the facilities whose address contains the area name case-insensitively.
`h["address"].lower()` raises `AttributeError` when the address is `None`,
modelled as `.error`. -/
def filter_by_address : List Facility → String → Except Unit (List Facility)
  | [], _ => .ok []
  | h :: t, area_name =>
    match h.address with
    | none => .error ()
    | some addr =>
      match filter_by_address t area_name with
      | .error e => .error e
      | .ok rest => .ok (if addressMatches area_name addr then h :: rest else rest)

/-- The radii tried by the escalation loop of `get_hospitals`:
`current_radius = 5000`, `radius_step = 5000`, `while current_radius <=
50000` — i.e. 5 km to 50 km inclusive in 5 km steps. -/
def radiusSteps : List Nat :=
  [5000, 10000, 15000, 20000, 25000, 30000, 35000, 40000, 45000, 50000]

/-- The radius-escalation loop (step 3 of `get_hospitals`): query each radius
in order and stop at the first non-empty result. -/
def radiusLoop (b : Backend) : GeoState → Rat × Rat → List Nat →
    Option (List Facility) × GeoState
  | s, _, [] => (none, s)
  | s, c, r :: rs =>
    let q := query_hospitals_around b s c.1 c.2 r
    if q.1.isEmpty then radiusLoop b q.2 c rs else (some q.1, q.2)

/-- Steps 4 and 5 of `get_hospitals`: query the parent area (district within
state), filter by address, and return the filtered list — or `[]` when the
filter leaves nothing.  A `None` address makes `filter_by_address` raise,
which propagates out of `get_hospitals`. -/
def parentAreaStage (b : Backend) (s : GeoState)
    (state district area_name : String) : Except Unit (List Facility) × GeoState :=
  let q := query_hospitals_in_area b s district state
  match filter_by_address q.1 area_name with
  | .error e => (.error e, q.2)
  | .ok filtered => (if filtered.isEmpty then .ok [] else .ok filtered, q.2)

/-- Steps 2–5 of `get_hospitals`: geocode; when coordinates were resolved try
the bounding box (default `delta = 0.045`) and then the radius escalation
(truncating the winning list to 10); otherwise — or when every radius came up
empty — fall through to the parent-area stage. -/
def fromStep2 (b : Backend) (s : GeoState)
    (country state district area_name : String) :
    Except Unit (List Facility) × GeoState :=
  let g := get_coords b s area_name district state country
  match g.1 with
  | some c =>
    let q := query_hospitals_in_bbox b g.2 c.1 c.2 (45 / 1000)
    if q.1.isEmpty then
      match radiusLoop b q.2 c radiusSteps with
      | (some hs, s') => (.ok (hs.take 10), s')
      | (none, s') => parentAreaStage b s' state district area_name
    else (.ok q.1, q.2)
  | none => parentAreaStage b g.2 state district area_name

/-- `get_hospitals(country, state, district, area_name)`: the staged fallback
search — named area first, then geocode/bounding-box/radius, then the
parent-area filter, then `[]`. -/
def get_hospitals (b : Backend) (s : GeoState)
    (country state district area_name : String) :
    Except Unit (List Facility) × GeoState :=
  let q := query_hospitals_in_area b s area_name district
  if q.1.isEmpty then fromStep2 b q.2 country state district area_name
  else (.ok q.1, q.2)

/-! ## Specification-side definitions -/

/-- `TraceExt s s' P`: state `s'` extends `s` by appending trace events that
all satisfy `P`, leaving earlier events untouched. -/
def TraceExt (s s' : GeoState) (P : Event → Prop) : Prop :=
  ∃ Δ, s'.trace = s.trace ++ Δ ∧ ∀ e ∈ Δ, P e

/-- Events emitted by the reverse-geocoding pass. -/
def IsRevCall (e : Event) : Prop := ∃ la lo, e = .revCall la lo

/-- Events emitted by a named-area stage (its own backend query plus the
reverse-geocode calls of enrichment). -/
def IsAreaOrRev (e : Event) : Prop := (∃ a p, e = .areaQuery a p) ∨ IsRevCall e

/-- `f'` is `f` with at most its address changed, and an already-present
address stays present. -/
def agrees (f f' : Facility) : Prop :=
  f'.name = f.name ∧ f'.type = f.type ∧ f'.lat = f.lat ∧ f'.lon = f.lon ∧
  f'.found_in = f.found_in ∧ f'.distance = f.distance ∧
  (f.address.isSome = true → f'.address.isSome = true)

/-- Lifting `agrees` to optional facilities (for `getElem?` indexing). -/
def optAgrees : Option Facility → Option Facility → Prop
  | none, none => True
  | some f, some f' => agrees f f'
  | _, _ => False

/-- Specification of the radius-escalation loop's control flow: the radii
are tried left to right, each earlier radius produced an empty list, and
`hs` is the first non-empty result, with `sOut` the state right after it. -/
def FirstNonempty (b : Backend) (c : Rat × Rat) :
    GeoState → List Nat → List Facility → GeoState → Prop
  | _, [], _, _ => False
  | s, r :: rs, hs, sOut =>
    (query_hospitals_around b s c.1 c.2 r = (hs, sOut) ∧ hs ≠ [])
    ∨ (∃ s1, query_hospitals_around b s c.1 c.2 r = ([], s1)
        ∧ FirstNonempty b c s1 rs hs sOut)

/-- The ordering asserted by the spec for the radius stage: ascending by
distance, with a missing distance ordered last.  This is a spec-side
definition (written from the claim's words), to be compared with the code's
coerced sort key `pyKey`. -/
def distLeSpec (a c : Facility) : Prop :=
  match a.distance, c.distance with
  | some x, some y => x ≤ y
  | some _, none => True
  | none, some _ => False
  | none, none => True

/-! ## Concrete fixtures (fresh state, small backends and node lists) -/

/-- The state at process start: empty caches, empty trace. -/
def s0 : GeoState := ⟨[], [], []⟩

/-- A backend whose every outbound call raises. -/
def bErr : Backend :=
  { areaNodes := fun _ _ => .error ()
    bboxNodes := fun _ _ _ _ => .error ()
    aroundNodes := fun _ _ _ => .error ()
    geocodeAddr := fun _ => .error ()
    revGeocode := fun _ => .error ()
    geodesicKm := fun _ _ => 1 }

def nC1 : Node :=
  ⟨[("name", "General Hospital"), ("amenity", "hospital"),
    ("addr:full", "1 Main St")], 10, 20⟩

/-- Backend for which the named-area query succeeds with one node. -/
def bC1 : Backend :=
  { bErr with areaNodes := fun _ _ => .ok [nC1] }

def fsC1 : List Facility := (query_hospitals_in_area bC1 s0 "A" "D").1

def sC1 : GeoState := (query_hospitals_in_area bC1 s0 "A" "D").2

def nC2a : Node :=
  ⟨[("name", "Near Clinic"), ("amenity", "clinic"), ("addr:full", "2 Oak St")],
    35, 139⟩

def nC2b : Node :=
  ⟨[("name", "Far Clinic"), ("amenity", "clinic"), ("addr:full", "9 Elm St")],
    36, 140⟩

/-- Backend where the named area and bounding box are empty, geocoding
resolves, and the 5 km radius query returns two nodes at distances 1 and 2. -/
def bC2 : Backend :=
  { bErr with
    areaNodes := fun _ _ => .ok []
    bboxNodes := fun _ _ _ _ => .ok []
    aroundNodes := fun _ _ _ => .ok [nC2a, nC2b]
    geocodeAddr := fun _ => .ok (some (35, 139))
    geodesicKm := fun _ q => if q = (35, 139) then 1 else 2 }

def s1C2 : GeoState := (query_hospitals_in_area bC2 s0 "A" "D").2
def s2C2 : GeoState := (get_coords bC2 s1C2 "A" "D" "S" "C").2
def s3C2 : GeoState := (query_hospitals_in_bbox bC2 s2C2 35 139 (45 / 1000)).2
def hsC2 : List Facility :=
  ((radiusLoop bC2 s3C2 (35, 139) radiusSteps).1).getD []
def s4C2 : GeoState := (radiusLoop bC2 s3C2 (35, 139) radiusSteps).2

/-- Like `bC2` but the node at the reference point has geodesic distance
exactly 0 (it sits at the geocoded coordinates), the other distance 3. -/
def bC2x : Backend :=
  { bC2 with geodesicKm := fun p q => if q = p then 0 else 3 }

def s1C2x : GeoState := (query_hospitals_in_area bC2x s0 "A" "D").2
def s2C2x : GeoState := (get_coords bC2x s1C2x "A" "D" "S" "C").2
def sC2x : GeoState := (get_hospitals bC2x s0 "C" "S" "D" "A").2

/-- The enriched facility of `nC2a` in the 5 km radius stage of `bC2x`:
located exactly at the reference point, distance 0. -/
def fC2xa : Facility :=
  ⟨"Near Clinic", "clinic", 35, 139, some "2 Oak St", "within 5 km", some 0⟩

/-- The enriched facility of `nC2b` in the 5 km radius stage of `bC2x`. -/
def fC2xb : Facility :=
  ⟨"Far Clinic", "clinic", 36, 140, some "9 Elm St", "within 5 km", some 3⟩

/-- Backend where every spatial query is empty and forward geocoding finds
no match. -/
def bC3 : Backend :=
  { bErr with
    areaNodes := fun _ _ => .ok []
    geocodeAddr := fun _ => .ok none }

def s1C3 : GeoState := (query_hospitals_in_area bC3 s0 "A" "D").2

def fC4a : Facility :=
  ⟨"Dental Care", "dentist", 1, 2, some "12 Shibuya Crossing", "D", none⟩

def fC4b : Facility :=
  ⟨"Eye Care", "clinic", 3, 4, some "5 Elsewhere Road", "D", none⟩

/-- Backend whose reverse geocoder resolves every coordinate pair to the
same street address. -/
def bC6 : Backend :=
  { bErr with revGeocode := fun _ => .ok (some "Nice Street") }

/-- A node carrying a full tag address. -/
def nC6a : Node := ⟨[("name", "A"), ("addr:full", "Tag Address")], 1, 2⟩

/-- A node with no address tags at the same coordinates as `nC6a`. -/
def nC6b : Node := ⟨[("name", "B")], 1, 2⟩

/-- A node with no address tags at fresh coordinates. -/
def nC6w : Node := ⟨[("name", "W"), ("amenity", "pharmacy")], 5, 6⟩

/-- Backend whose forward geocoder finds no match (a failed resolution). -/
def bC7 : Backend := { bErr with geocodeAddr := fun _ => .ok none }

def sC7a : GeoState := (get_coords bC7 s0 "A" "D" "S" "C").2
def sC7b : GeoState := (get_coords bC7 sC7a "A" "D" "S" "C").2

/-- Backend whose forward geocoder resolves to (35, 139). -/
def bC7w : Backend := { bErr with geocodeAddr := fun _ => .ok (some (35, 139)) }

def sC7w : GeoState := (get_coords bC7w s0 "A" "D" "S" "C").2

/-- Backend with a constant geodesic distance of 7 km. -/
def bC8 : Backend := { bErr with geodesicKm := fun _ _ => 7 }

def nC8 : Node := ⟨[("name", "H"), ("addr:full", "3 Pine St")], 10, 20⟩

/-- The single enriched facility of `nC8` with reference point (1, 2). -/
def fC8 : Facility := mkFacility bC8 "L" (some 1) (some 2) nC8

def fsC8 : List Facility :=
  (node_to_medical_facility bC8 s0 [nC8] "L" (some 1) (some 2)).1
def sC8 : GeoState :=
  (node_to_medical_facility bC8 s0 [nC8] "L" (some 1) (some 2)).2

def hsC10 : List Facility := (query_hospitals_around bC2x s0 35 139 5000).1
def sC10 : GeoState := (query_hospitals_around bC2x s0 35 139 5000).2

/-! ## Trace infrastructure -/

theorem TraceExt.refl (s : GeoState) (P : Event → Prop) : TraceExt s s P :=
  ⟨[], by simp, by simp⟩

theorem TraceExt.trans {s1 s2 s3 : GeoState} {P : Event → Prop}
    (h1 : TraceExt s1 s2 P) (h2 : TraceExt s2 s3 P) : TraceExt s1 s3 P := by
  obtain ⟨d1, e1, p1⟩ := h1
  obtain ⟨d2, e2, p2⟩ := h2
  refine ⟨d1 ++ d2, by simp [e2, e1], ?_⟩
  intro e he
  rcases List.mem_append.1 he with h | h
  exacts [p1 e h, p2 e h]

theorem TraceExt.mono {s s' : GeoState} {P Q : Event → Prop}
    (h : TraceExt s s' P) (pq : ∀ e, P e → Q e) : TraceExt s s' Q := by
  obtain ⟨d, e1, p1⟩ := h
  exact ⟨d, e1, fun e he => pq e (p1 e he)⟩

theorem TraceExt.push (s : GeoState) (e : Event) {P : Event → Prop} (he : P e) :
    TraceExt s (s.push e) P :=
  ⟨[e], rfl, by simp [he]⟩

theorem isRevCall_flags {e : Event} (h : IsRevCall e) :
    e.isForwardCall = false ∧ e.isBboxQuery = false ∧ e.isAroundQuery = false := by
  obtain ⟨la, lo, rfl⟩ := h
  exact ⟨rfl, rfl, rfl⟩

theorem isAreaOrRev_flags {e : Event} (h : IsAreaOrRev e) :
    e.isForwardCall = false ∧ e.isBboxQuery = false ∧ e.isAroundQuery = false := by
  rcases h with ⟨a, p, rfl⟩ | h
  · exact ⟨rfl, rfl, rfl⟩
  · exact isRevCall_flags h

theorem fetch_traceExt (b : Backend) (s : GeoState) (c : Rat × Rat) :
    TraceExt s (fetch_reverse_geocode b s c).2 IsRevCall := by
  unfold fetch_reverse_geocode
  cases alookup s.revCache c with
  | some a => exact TraceExt.refl s _
  | none =>
    cases b.revGeocode c with
    | ok loc => exact ⟨[.revCall c.1 c.2], rfl, by simp [IsRevCall]⟩
    | error _ => exact ⟨[.revCall c.1 c.2], rfl, by simp [IsRevCall]⟩

theorem geocodePass_traceExt (b : Backend) (cs : List (Rat × Rat)) :
    ∀ (s : GeoState) (fs : List Facility),
      TraceExt s (geocodePass b s cs fs).2 IsRevCall := by
  induction cs with
  | nil => intro s fs; exact TraceExt.refl s _
  | cons c cs ih =>
    intro s fs
    exact (fetch_traceExt b s c).trans (ih _ _)

theorem nmf_traceExt (b : Backend) (s : GeoState) (nodes : List Node)
    (found_in : String) (ref_lat ref_lon : Option Rat) :
    TraceExt s (node_to_medical_facility b s nodes found_in ref_lat ref_lon).2 IsRevCall :=
  geocodePass_traceExt b _ s _

theorem query_area_traceExt (b : Backend) (s : GeoState) (a p : String) :
    TraceExt s (query_hospitals_in_area b s a p).2 IsAreaOrRev := by
  unfold query_hospitals_in_area
  have h1 : TraceExt s (s.push (.areaQuery a p)) IsAreaOrRev :=
    TraceExt.push s _ (Or.inl ⟨a, p, rfl⟩)
  cases b.areaNodes a p with
  | ok nodes =>
    exact h1.trans ((nmf_traceExt b _ nodes a none none).mono (fun e he => Or.inr he))
  | error _ => exact h1

theorem filter_by_address_ok_or_error (hs : List Facility) (a : String) :
    (∃ l, filter_by_address hs a = .ok l) ∨ filter_by_address hs a = .error () := by
  induction hs with
  | nil => exact Or.inl ⟨[], rfl⟩
  | cons h t ih =>
    unfold filter_by_address
    cases h.address with
    | none => exact Or.inr rfl
    | some addr =>
      rcases ih with ⟨l, hl⟩ | hl
      · rw [hl]; exact Or.inl ⟨_, rfl⟩
      · rw [hl]; exact Or.inr rfl

theorem parentAreaStage_snd (b : Backend) (s : GeoState)
    (state district area_name : String) :
    (parentAreaStage b s state district area_name).2 =
      (query_hospitals_in_area b s district state).2 := by
  rcases filter_by_address_ok_or_error
      (query_hospitals_in_area b s district state).1 area_name with ⟨l, hl⟩ | hl <;>
    simp [parentAreaStage, hl]

theorem parentAreaStage_traceExt (b : Backend) (s : GeoState)
    (state district area_name : String) :
    TraceExt s (parentAreaStage b s state district area_name).2 IsAreaOrRev := by
  rw [parentAreaStage_snd]
  exact query_area_traceExt b s district state

/-! ## Pointwise structure of the enrichment pass -/

theorem agrees_refl (f : Facility) : agrees f f :=
  ⟨rfl, rfl, rfl, rfl, rfl, rfl, fun h => h⟩

theorem agrees_trans {f g h : Facility} (h1 : agrees f g) (h2 : agrees g h) :
    agrees f h := by
  obtain ⟨a1, a2, a3, a4, a5, a6, a7⟩ := h1
  obtain ⟨b1, b2, b3, b4, b5, b6, b7⟩ := h2
  exact ⟨b1.trans a1, b2.trans a2, b3.trans a3, b4.trans a4, b5.trans a5,
    b6.trans a6, fun h => b7 (a7 h)⟩

theorem agrees_setAddr (f : Facility) (a : String) :
    agrees f { f with address := some a } :=
  ⟨rfl, rfl, rfl, rfl, rfl, rfl, fun _ => rfl⟩

theorem optAgrees_refl (o : Option Facility) : optAgrees o o := by
  cases o with
  | none => trivial
  | some f => exact agrees_refl f

theorem optAgrees_trans {o1 o2 o3 : Option Facility}
    (h1 : optAgrees o1 o2) (h2 : optAgrees o2 o3) : optAgrees o1 o3 := by
  cases o1 <;> cases o2 <;> cases o3 <;> simp [optAgrees] at *
  exact agrees_trans h1 h2

theorem applyResult_agrees (k : Rat × Rat) (a : String) :
    ∀ (fs : List Facility) (i : Nat),
      optAgrees fs[i]? (applyResult fs k a)[i]? := by
  intro fs
  induction fs with
  | nil => intro i; simp [applyResult, optAgrees]
  | cons f t ih =>
    intro i
    unfold applyResult
    by_cases hk : (f.lat, f.lon) = k
    · simp only [if_pos hk]
      cases i with
      | zero => simpa using agrees_setAddr f a
      | succ n => simpa using optAgrees_refl t[n]?
    · simp only [if_neg hk]
      cases i with
      | zero => simpa using agrees_refl f
      | succ n => simpa using ih n

theorem geocodePass_agrees (b : Backend) (cs : List (Rat × Rat)) :
    ∀ (s : GeoState) (fs : List Facility) (i : Nat),
      optAgrees fs[i]? ((geocodePass b s cs fs).1)[i]? := by
  induction cs with
  | nil => intro s fs i; exact optAgrees_refl _
  | cons c cs ih =>
    intro s fs i
    exact optAgrees_trans (applyResult_agrees _ _ fs i) (ih _ _ i)

theorem fetch_key (b : Backend) (s : GeoState) (c : Rat × Rat) :
    (fetch_reverse_geocode b s c).1.1 = c := by
  unfold fetch_reverse_geocode
  cases alookup s.revCache c with
  | some a => rfl
  | none =>
    cases b.revGeocode c with
    | ok loc => rfl
    | error e => rfl

theorem optAgrees_some {f : Facility} {o : Option Facility}
    (h : optAgrees (some f) o) : ∃ f', o = some f' ∧ agrees f f' := by
  cases o with
  | none => exact absurd h (by simp [optAgrees])
  | some f' => exact ⟨f', rfl, h⟩

theorem optAgrees_some_right {g : Facility} {o : Option Facility}
    (h : optAgrees o (some g)) : ∃ g0, o = some g0 ∧ agrees g0 g := by
  cases o with
  | none => exact absurd h (by simp [optAgrees])
  | some g0 => exact ⟨g0, rfl, h⟩

/-- The source's application loop sets the address of the first facility
whose coordinate pair equals the key (then `break`s). -/
theorem applyResult_first (k : Rat × Rat) (a : String) :
    ∀ (fs : List Facility) (i : Nat) (f : Facility),
      fs[i]? = some f → (f.lat, f.lon) = k →
      (∀ j g, j < i → fs[j]? = some g → (g.lat, g.lon) ≠ k) →
      (applyResult fs k a)[i]? = some { f with address := some a } := by
  intro fs
  induction fs with
  | nil => intro i f h; simp at h
  | cons f0 t ih =>
    intro i f hget hcoords hfirst
    cases i with
    | zero =>
      simp only [List.getElem?_cons_zero, Option.some.injEq] at hget
      subst hget
      unfold applyResult
      rw [if_pos hcoords]
      simp
    | succ n =>
      have h0 : (f0.lat, f0.lon) ≠ k := hfirst 0 f0 (Nat.succ_pos n) (by simp)
      unfold applyResult
      rw [if_neg h0]
      simp only [List.getElem?_cons_succ] at hget ⊢
      exact ih n f hget hcoords
        (fun j g hj hg => hfirst (j + 1) g (Nat.succ_lt_succ hj) (by simpa using hg))

/-- If a queued coordinate pair matches the facility at position `i`, and no
earlier facility shares that pair, then after the reverse-geocoding pass the
facility at position `i` has a (non-null) address. -/
theorem geocodePass_first (b : Backend) :
    ∀ (cs : List (Rat × Rat)) (s : GeoState) (fs : List Facility)
      (k : Rat × Rat) (i : Nat) (f : Facility),
      k ∈ cs → fs[i]? = some f → (f.lat, f.lon) = k →
      (∀ j g, j < i → fs[j]? = some g → (g.lat, g.lon) ≠ k) →
      ∃ f', ((geocodePass b s cs fs).1)[i]? = some f' ∧ f'.address.isSome = true := by
  intro cs
  induction cs with
  | nil => intro s fs k i f hk; simp at hk
  | cons c cs ih =>
    intro s fs k i f hk hget hcoords hfirst
    show ∃ f', ((geocodePass b (fetch_reverse_geocode b s c).2 cs
      (applyResult fs (fetch_reverse_geocode b s c).1.1
        (fetch_reverse_geocode b s c).1.2)).1)[i]? = some f' ∧ f'.address.isSome = true
    rw [fetch_key]
    by_cases hck : c = k
    · subst hck
      have happ := applyResult_first c (fetch_reverse_geocode b s c).1.2 fs i f
        hget hcoords hfirst
      have hag := geocodePass_agrees b cs (fetch_reverse_geocode b s c).2
        (applyResult fs c (fetch_reverse_geocode b s c).1.2) i
      rw [happ] at hag
      obtain ⟨f', hf', hagr⟩ := optAgrees_some hag
      exact ⟨f', hf', hagr.2.2.2.2.2.2 rfl⟩
    · have hk' : k ∈ cs := by
        rcases List.mem_cons.1 hk with h | h
        · exact absurd h.symm hck
        · exact h
      have hag := applyResult_agrees c (fetch_reverse_geocode b s c).1.2 fs i
      rw [hget] at hag
      obtain ⟨f1, hf1, hagr⟩ := optAgrees_some hag
      apply ih (fetch_reverse_geocode b s c).2 _ k i f1 hk' hf1
      · show (f1.lat, f1.lon) = k
        rw [hagr.2.2.1, hagr.2.2.2.1]
        exact hcoords
      · intro j g hj hg
        have hagj := applyResult_agrees c (fetch_reverse_geocode b s c).1.2 fs j
        rw [hg] at hagj
        obtain ⟨g0, hg0, hagg⟩ := optAgrees_some_right hagj
        intro hgk
        apply hfirst j g0 hj hg0
        rw [← hagg.2.2.1, ← hagg.2.2.2.1]
        exact hgk

/-! ## The radius-stage sort -/

theorem keyLe_trans : ∀ a c e : Facility,
    keyLe a c = true → keyLe c e = true → keyLe a e = true := by
  intro a c e h1 h2
  unfold keyLe at *
  cases ha : pyKey a <;> cases hc : pyKey c <;> cases he : pyKey e <;>
    simp_all
  exact le_trans h1 h2

theorem keyLe_total : ∀ a c : Facility, keyLe a c || keyLe c a := by
  intro a c
  unfold keyLe
  cases pyKey a <;> cases pyKey c <;> simp
  exact le_total _ _

theorem mem_insertByKey (f x : Facility) :
    ∀ t : List Facility, x ∈ insertByKey f t ↔ x = f ∨ x ∈ t := by
  intro t
  induction t with
  | nil => simp [insertByKey]
  | cons g t ih =>
    unfold insertByKey
    by_cases hfg : keyLe f g = true <;> simp [hfg, ih] <;> tauto

theorem pairwise_insertByKey (f : Facility) :
    ∀ t : List Facility, t.Pairwise (fun a c => keyLe a c = true) →
      (insertByKey f t).Pairwise (fun a c => keyLe a c = true) := by
  intro t
  induction t with
  | nil => intro _; simp [insertByKey]
  | cons g t ih =>
    intro h
    rw [List.pairwise_cons] at h
    obtain ⟨hg, ht⟩ := h
    unfold insertByKey
    by_cases hfg : keyLe f g = true
    · rw [if_pos hfg]
      refine List.Pairwise.cons ?_ (List.Pairwise.cons hg ht)
      intro x hx
      rcases List.mem_cons.1 hx with rfl | hx
      · exact hfg
      · exact keyLe_trans f g x hfg (hg x hx)
    · rw [if_neg hfg]
      have hgf : keyLe g f = true := by
        have htot := keyLe_total f g
        rw [Bool.or_eq_true] at htot
        exact htot.resolve_left hfg
      refine List.Pairwise.cons ?_ (ih ht)
      intro x hx
      rcases (mem_insertByKey f x t).mp hx with rfl | hx
      · exact hgf
      · exact hg x hx

theorem pySort_pairwise :
    ∀ l : List Facility, (pySort l).Pairwise (fun a c => keyLe a c = true) := by
  intro l
  induction l with
  | nil => simp [pySort]
  | cons f t ih => exact pairwise_insertByKey f (pySort t) ih

/-! ## Stage-level helper lemmas -/

/-- `get_coords` on a cache miss whose service call raises or finds no match
returns `None`, caches nothing, and records exactly one forward call. -/
theorem get_coords_fail (b : Backend) (s : GeoState)
    (area_name district state country : String)
    (hmiss : alookup s.coordsCache (fullAddress area_name district state country) = none)
    (hfail : b.geocodeAddr (fullAddress area_name district state country) = .error ()
      ∨ b.geocodeAddr (fullAddress area_name district state country) = .ok none) :
    get_coords b s area_name district state country =
      (none, s.push (.forwardCall (fullAddress area_name district state country))) := by
  rcases hfail with h | h <;> simp [get_coords, hmiss, h]

/-- The comprehension of `filter_by_address`, when no address is `None`,
is exactly `List.filter` with the case-insensitive substring predicate. -/
theorem filter_by_address_ok :
    ∀ (hospitals : List Facility) (area_name : String) (res : List Facility),
      filter_by_address hospitals area_name = .ok res →
      res = hospitals.filter (fun f => addressMatches area_name (f.address.getD "")) := by
  intro hospitals
  induction hospitals with
  | nil =>
    intro a res h
    simp only [filter_by_address, Except.ok.injEq] at h
    simp [← h]
  | cons f t ih =>
    intro a res h
    unfold filter_by_address at h
    cases haddr : f.address with
    | none => rw [haddr] at h; exact absurd h (by simp)
    | some addr =>
      rw [haddr] at h
      cases hrec : filter_by_address t a with
      | error e => rw [hrec] at h; exact absurd h (by simp)
      | ok rest =>
        rw [hrec] at h
        simp only [Except.ok.injEq] at h
        subst h
        rw [List.filter_cons]
        simp only [haddr, Option.getD_some]
        by_cases hm : addressMatches a addr = true <;>
          simp [hm, ih a rest hrec]

/-- Whatever `query_hospitals_around` returns is sorted by the coerced key
(`h["distance"] or float('inf')`). -/
theorem query_around_pairwise (b : Backend) (s : GeoState) (lat lon : Rat)
    (radius : Nat) (hs : List Facility) (s' : GeoState)
    (h : query_hospitals_around b s lat lon radius = (hs, s')) :
    hs.Pairwise (fun a c => keyLe a c = true) := by
  simp only [query_hospitals_around] at h
  cases hq : b.aroundNodes radius lat lon with
  | ok nodes =>
    rw [hq] at h
    have h1 := congrArg Prod.fst h
    simp only at h1
    rw [← h1]
    exact pySort_pairwise _
  | error e =>
    rw [hq] at h
    have h1 := congrArg Prod.fst h
    simp only at h1
    rw [← h1]
    exact List.Pairwise.nil

/-- The coerced key puts a zero distance after every positive one: if `a`
precedes `c` in key order, then `a` cannot have distance exactly 0 while `c`
has a positive distance. -/
theorem keyLe_not_zero_before_pos {a c : Facility} (h : keyLe a c = true) :
    ¬(a.distance = some 0 ∧ ∃ d, c.distance = some d ∧ 0 < d) := by
  rintro ⟨ha, d, hc, hd⟩
  have hka : pyKey a = none := by simp [pyKey, ha]
  have hkc : pyKey c = some d := by simp [pyKey, hc, hd.ne']
  unfold keyLe at h
  rw [hka, hkc] at h
  simp at h

/-- Soundness of the radius loop: a `some` result means the radii were tried
in order and the result is the first non-empty one. -/
theorem radiusLoop_firstNonempty (b : Backend) (c : Rat × Rat) :
    ∀ (rs : List Nat) (s : GeoState) (hs : List Facility) (s' : GeoState),
      radiusLoop b s c rs = (some hs, s') → FirstNonempty b c s rs hs s' := by
  intro rs
  induction rs with
  | nil => intro s hs s' h; simp [radiusLoop] at h
  | cons r rs ih =>
    intro s hs s' h
    simp only [radiusLoop] at h
    split at h
    · rename_i he
      refine Or.inr ⟨(query_hospitals_around b s c.1 c.2 r).2, ?_, ih _ _ _ h⟩
      have h0 : (query_hospitals_around b s c.1 c.2 r).1 = [] :=
        List.isEmpty_iff.mp he
      rw [← h0]
    · rename_i he
      have h1 := congrArg Prod.fst h
      have h2 := congrArg Prod.snd h
      simp only [Option.some.injEq] at h1
      simp only at h2
      refine Or.inl ⟨?_, ?_⟩
      · rw [← h1, ← h2]
      · rw [← h1]
        exact List.isEmpty_eq_false.mp (Bool.not_eq_true _ ▸ Bool.of_not_eq_true he)

/-- A first-non-empty radius result is the output of some single
`query_hospitals_around` call. -/
theorem firstNonempty_exists_query (b : Backend) (c : Rat × Rat) :
    ∀ (rs : List Nat) (s : GeoState) (hs : List Facility) (s' : GeoState),
      FirstNonempty b c s rs hs s' →
      ∃ sIn r, r ∈ rs ∧ query_hospitals_around b sIn c.1 c.2 r = (hs, s') := by
  intro rs
  induction rs with
  | nil => intro s hs s' h; exact absurd h (by simp [FirstNonempty])
  | cons r rs ih =>
    intro s hs s' h
    rcases h with ⟨hq, _⟩ | ⟨s1, _, hrest⟩
    · exact ⟨s, r, List.mem_cons_self r rs, hq⟩
    · obtain ⟨sIn, r', hr', hq'⟩ := ih s1 hs s' hrest
      exact ⟨sIn, r', List.mem_cons_of_mem r hr', hq'⟩

/-! ## Claim theorems -/

/-- C1: for every search request where the named-area query (area within
district) returns at least one facility, `get_hospitals` returns exactly that
enriched list, unmodified and in the same order, with the state exactly as
stage 1 left it (so no later stage runs), and stage 1 itself emits no forward
geocoder call, no bounding-box query and no radius query. -/
theorem C1_named_area_short_circuit (b : Backend) (s : GeoState)
    (country state district area_name : String) (hs : List Facility) (s1 : GeoState)
    (hq : query_hospitals_in_area b s area_name district = (hs, s1))
    (hne : hs ≠ []) :
    get_hospitals b s country state district area_name = (Except.ok hs, s1)
    ∧ ∃ Δ, s1.trace = s.trace ++ Δ
        ∧ ∀ e ∈ Δ, e.isForwardCall = false ∧ e.isBboxQuery = false
            ∧ e.isAroundQuery = false := by
  constructor
  · simp [get_hospitals, hq, hne]
  · have h := query_area_traceExt b s area_name district
    rw [hq] at h
    obtain ⟨Δ, hΔ, hP⟩ := h
    exact ⟨Δ, hΔ, fun e he => isAreaOrRev_flags (hP e he)⟩

/-- Witness for C1: a backend whose named-area query returns one node. -/
theorem C1_witness :
    get_hospitals bC1 s0 "C" "S" "D" "A" = (Except.ok fsC1, sC1)
    ∧ ∃ Δ, sC1.trace = s0.trace ++ Δ
        ∧ ∀ e ∈ Δ, e.isForwardCall = false ∧ e.isBboxQuery = false
            ∧ e.isAroundQuery = false :=
  C1_named_area_short_circuit bC1 s0 "C" "S" "D" "A" fsC1 sC1 rfl (by decide)

/-- C3: when the named-area stage is empty and forward geocoding fails
(service error or no match, on a cache miss), `get_hospitals` proceeds
directly to the parent-area stage — the whole search issues no bounding-box
query and no radius query. -/
theorem C3_forward_failure_skips_to_parent (b : Backend) (s : GeoState)
    (country state district area_name : String) (s1 : GeoState)
    (hq : query_hospitals_in_area b s area_name district = ([], s1))
    (hmiss : alookup s1.coordsCache (fullAddress area_name district state country) = none)
    (hfail : b.geocodeAddr (fullAddress area_name district state country) = .error ()
      ∨ b.geocodeAddr (fullAddress area_name district state country) = .ok none) :
    get_hospitals b s country state district area_name =
      parentAreaStage b
        (s1.push (.forwardCall (fullAddress area_name district state country)))
        state district area_name
    ∧ ∃ Δ, (get_hospitals b s country state district area_name).2.trace = s.trace ++ Δ
        ∧ ∀ e ∈ Δ, e.isBboxQuery = false ∧ e.isAroundQuery = false := by
  have hmain : get_hospitals b s country state district area_name =
      parentAreaStage b
        (s1.push (.forwardCall (fullAddress area_name district state country)))
        state district area_name := by
    simp [get_hospitals, hq, fromStep2,
      get_coords_fail b s1 area_name district state country hmiss hfail]
  refine ⟨hmain, ?_⟩
  rw [hmain]
  have t1 : TraceExt s s1 (fun e => e.isBboxQuery = false ∧ e.isAroundQuery = false) := by
    have h := query_area_traceExt b s area_name district
    rw [hq] at h
    exact h.mono (fun e he => ⟨(isAreaOrRev_flags he).2.1, (isAreaOrRev_flags he).2.2⟩)
  have t2 : TraceExt s1
      (s1.push (.forwardCall (fullAddress area_name district state country)))
      (fun e => e.isBboxQuery = false ∧ e.isAroundQuery = false) :=
    @TraceExt.push s1 (.forwardCall (fullAddress area_name district state country))
      (fun e => e.isBboxQuery = false ∧ e.isAroundQuery = false) ⟨rfl, rfl⟩
  have t3 : TraceExt
      (s1.push (.forwardCall (fullAddress area_name district state country)))
      (parentAreaStage b
        (s1.push (.forwardCall (fullAddress area_name district state country)))
        state district area_name).2
      (fun e => e.isBboxQuery = false ∧ e.isAroundQuery = false) :=
    (parentAreaStage_traceExt b
      (s1.push (.forwardCall (fullAddress area_name district state country)))
      state district area_name).mono
      (fun e he => ⟨(isAreaOrRev_flags he).2.1, (isAreaOrRev_flags he).2.2⟩)
  show TraceExt s _ (fun e => e.isBboxQuery = false ∧ e.isAroundQuery = false)
  exact t1.trans (t2.trans t3)

/-- Witness for C3: empty spatial data and a no-match forward geocoder. -/
theorem C3_witness :
    get_hospitals bC3 s0 "C" "S" "D" "A" =
      parentAreaStage bC3 (s1C3.push (.forwardCall (fullAddress "A" "D" "S" "C")))
        "S" "D" "A"
    ∧ ∃ Δ, (get_hospitals bC3 s0 "C" "S" "D" "A").2.trace = s0.trace ++ Δ
        ∧ ∀ e ∈ Δ, e.isBboxQuery = false ∧ e.isAroundQuery = false :=
  C3_forward_failure_skips_to_parent bC3 s0 "C" "S" "D" "A" s1C3 rfl rfl (Or.inr rfl)

/-- C4: for every result list the parent-area filter produces, a facility is
retained iff its address contains the original area name as a
case-insensitive substring; all others are dropped (order preserved). -/
theorem C4_filter_retains_iff (hospitals : List Facility) (area_name : String)
    (res : List Facility)
    (h : filter_by_address hospitals area_name = .ok res) :
    res = hospitals.filter (fun f => addressMatches area_name (f.address.getD ""))
    ∧ ∀ f, f ∈ res ↔ f ∈ hospitals ∧
        addressMatches area_name (f.address.getD "") = true := by
  have h1 := filter_by_address_ok hospitals area_name res h
  refine ⟨h1, fun f => ?_⟩
  rw [h1]
  simp [List.mem_filter]

/-- Witness for C4: one matching and one non-matching address. -/
theorem C4_witness :
    [fC4a] = [fC4a, fC4b].filter
        (fun f => addressMatches "Shibuya" (f.address.getD ""))
    ∧ ∀ f, f ∈ [fC4a] ↔ f ∈ [fC4a, fC4b] ∧
        addressMatches "Shibuya" (f.address.getD "") = true :=
  C4_filter_retains_iff [fC4a, fC4b] "Shibuya" [fC4a] rfl

/-- C5: a raising spatial backend never aborts the search — each of the
three query functions returns `[]` (recording only its own query event), and
a stage-1 backend failure makes the orchestrator continue with the next
stage. -/
theorem C5_backend_failure_swallowed (b : Backend) (s : GeoState)
    (a p : String) (lat lon delta : Rat) (radius : Nat)
    (country state district area_name : String)
    (h1 : b.areaNodes a p = .error ())
    (h2 : b.bboxNodes (lat - delta) (lon - delta) (lat + delta) (lon + delta) = .error ())
    (h3 : b.aroundNodes radius lat lon = .error ())
    (h4 : b.areaNodes area_name district = .error ()) :
    query_hospitals_in_area b s a p = ([], s.push (.areaQuery a p))
    ∧ query_hospitals_in_bbox b s lat lon delta = ([], s.push (.bboxQuery lat lon))
    ∧ query_hospitals_around b s lat lon radius = ([], s.push (.aroundQuery radius lat lon))
    ∧ get_hospitals b s country state district area_name =
        fromStep2 b (s.push (.areaQuery area_name district))
          country state district area_name := by
  refine ⟨?_, ?_, ?_, ?_⟩
  · simp [query_hospitals_in_area, h1]
  · simp [query_hospitals_in_bbox, h2]
  · simp [query_hospitals_around, h3]
  · simp [get_hospitals, query_hospitals_in_area, h4]

/-- Witness for C5: the all-raising backend. -/
theorem C5_witness :
    query_hospitals_in_area bErr s0 "A" "D" = ([], s0.push (.areaQuery "A" "D"))
    ∧ query_hospitals_in_bbox bErr s0 1 2 3 = ([], s0.push (.bboxQuery 1 2))
    ∧ query_hospitals_around bErr s0 1 2 5000 = ([], s0.push (.aroundQuery 5000 1 2))
    ∧ get_hospitals bErr s0 "C" "S" "D" "A" =
        fromStep2 bErr (s0.push (.areaQuery "A" "D")) "C" "S" "D" "A" :=
  C5_backend_failure_swallowed bErr s0 "A" "D" 1 2 3 5000 "C" "S" "D" "A"
    rfl rfl rfl rfl

/-- `get_coords` on a cache hit answers from the cache, with no service
call and no state change. -/
theorem get_coords_hit (b : Backend) (s : GeoState)
    (area_name district state country : String) (v : Rat × Rat)
    (h : alookup s.coordsCache (fullAddress area_name district state country) = some v) :
    get_coords b s area_name district state country = (some v, s) := by
  simp [get_coords, h]

/-- C2 (amended): when the named-area stage is empty, coordinates were
resolved, the bounding box is empty and some radius returns facilities, the
radii 5 km, 10 km, …, 50 km are tried in order, and the first non-empty
result is returned truncated to at most 10 records, sorted ascending by the
coerced key that treats a missing OR zero distance as `+inf` (so ordered by
distance among positive distances, with zero-or-missing distances last; the
counterexample shows it is not sorted ascending by distance itself). -/
theorem C2_radius_stage_sorted_capped (b : Backend) (s : GeoState)
    (country state district area_name : String)
    (s1 s2 s3 : GeoState) (c : Rat × Rat) (hs : List Facility) (s4 : GeoState)
    (h1 : query_hospitals_in_area b s area_name district = ([], s1))
    (hc : get_coords b s1 area_name district state country = (some c, s2))
    (h2 : query_hospitals_in_bbox b s2 c.1 c.2 (45 / 1000) = ([], s3))
    (hr : radiusLoop b s3 c radiusSteps = (some hs, s4)) :
    get_hospitals b s country state district area_name = (Except.ok (hs.take 10), s4)
    ∧ (hs.take 10).length ≤ 10
    ∧ (hs.take 10).Pairwise (fun x y => keyLe x y = true)
    ∧ FirstNonempty b c s3 radiusSteps hs s4 := by
  have hfn := radiusLoop_firstNonempty b c radiusSteps s3 hs s4 hr
  refine ⟨?_, ?_, ?_, hfn⟩
  · simp [get_hospitals, h1, fromStep2, hc, h2, hr]
  · rw [List.length_take]
    exact min_le_left _ _
  · obtain ⟨sIn, r, _, hq⟩ := firstNonempty_exists_query b c radiusSteps s3 hs s4 hfn
    exact (query_around_pairwise b sIn c.1 c.2 r hs s4 hq).sublist
      (List.take_sublist 10 hs)

/-- Witness for C2: empty named area and bounding box, geocoding resolves,
and the 5 km radius query returns two facilities at distances 1 and 2. -/
theorem C2_witness :
    get_hospitals bC2 s0 "C" "S" "D" "A" = (Except.ok (hsC2.take 10), s4C2)
    ∧ (hsC2.take 10).length ≤ 10
    ∧ (hsC2.take 10).Pairwise (fun x y => keyLe x y = true)
    ∧ FirstNonempty bC2 (35, 139) s3C2 radiusSteps hsC2 s4C2 :=
  C2_radius_stage_sorted_capped bC2 s0 "C" "S" "D" "A" s1C2 s2C2 s3C2 (35, 139)
    hsC2 s4C2 rfl rfl rfl rfl

/-- C2 counterexample: with one facility located exactly at the reference
point (geodesic distance 0.0, which is falsy), the radius stage's output is
NOT sorted ascending by distance (`some 3` precedes `some 0`), refuting the
claim's ordering clause; the stage conditions all hold at this input. -/
theorem C2_counterexample :
    (query_hospitals_in_area bC2x s0 "A" "D").1 = []
    ∧ (get_coords bC2x s1C2x "A" "D" "S" "C").1 = some (35, 139)
    ∧ (query_hospitals_in_bbox bC2x s2C2x 35 139 (45 / 1000)).1 = []
    ∧ get_hospitals bC2x s0 "C" "S" "D" "A" = (Except.ok [fC2xb, fC2xa], sC2x)
    ∧ fC2xb.distance = some 3 ∧ fC2xa.distance = some 0
    ∧ ¬ List.Pairwise distLeSpec [fC2xb, fC2xa] := by
  refine ⟨rfl, rfl, rfl, rfl, rfl, rfl, ?_⟩
  intro h
  have h1 := (List.pairwise_cons.mp h).1 fC2xa (by simp)
  simp only [distLeSpec, fC2xb, fC2xa] at h1
  norm_num at h1

/-- C10: in the radius stage's sort the key `h["distance"] or float('inf')`
coerces the falsy distance `0.0` to `+inf`, so a facility whose distance is
exactly 0 is never ordered before a facility with positive distance — it
sorts last, not first. -/
theorem C10_zero_distance_sorts_last (b : Backend) (s : GeoState)
    (lat lon : Rat) (radius : Nat) (hs : List Facility) (s' : GeoState)
    (h : query_hospitals_around b s lat lon radius = (hs, s')) :
    hs.Pairwise
      (fun a c => ¬(a.distance = some 0 ∧ ∃ d, c.distance = some d ∧ 0 < d)) :=
  (query_around_pairwise b s lat lon radius hs s' h).imp
    (fun hle => keyLe_not_zero_before_pos hle)

/-- Witness for C10: a radius query whose facilities have distances 0 and 3. -/
theorem C10_witness :
    hsC10.Pairwise
      (fun a c => ¬(a.distance = some 0 ∧ ∃ d, c.distance = some d ∧ 0 < d)) :=
  C10_zero_distance_sorts_last bC2x s0 35 139 5000 hsC10 sC10 rfl

/-- C7 (amended): the forward geocoding service is invoked at most once per
distinct address string that RESOLVES: a successful resolution is cached,
and the cached entry answers every repeated identical request with no
further service invocation and no state change.  (The counterexample shows
failed and no-match resolutions are not cached, so those requests invoke
the service again, refuting the unqualified claim.) -/
theorem C7_success_cached_and_reused (b : Backend) (s : GeoState)
    (area_name district state country : String) (v : Rat × Rat) (s' : GeoState)
    (hsucc : get_coords b s area_name district state country = (some v, s')) :
    alookup s'.coordsCache (fullAddress area_name district state country) = some v
    ∧ get_coords b s' area_name district state country = (some v, s') := by
  have hcached :
      alookup s'.coordsCache (fullAddress area_name district state country) = some v := by
    simp only [get_coords] at hsucc
    cases hcache : alookup s.coordsCache (fullAddress area_name district state country) with
    | some w =>
      rw [hcache] at hsucc
      have h1 : w = v := by simpa using congrArg Prod.fst hsucc
      have h2 : s = s' := by simpa using congrArg Prod.snd hsucc
      rw [← h2, hcache, h1]
    | none =>
      rw [hcache] at hsucc
      cases hg : b.geocodeAddr (fullAddress area_name district state country) with
      | ok o =>
        cases o with
        | some w =>
          rw [hg] at hsucc
          have h1 : w = v := by simpa using congrArg Prod.fst hsucc
          have h2 := congrArg Prod.snd hsucc
          simp only at h2
          rw [← h2]
          simp [alookup, h1]
        | none =>
          rw [hg] at hsucc
          simpa using congrArg Prod.fst hsucc
      | error e =>
        rw [hg] at hsucc
        simpa using congrArg Prod.fst hsucc
  exact ⟨hcached, get_coords_hit b s' area_name district state country v hcached⟩

/-- Witness for C7: a resolving forward geocoder; the first call caches and
the repeated identical call is answered from the cache unchanged. -/
theorem C7_witness :
    alookup sC7w.coordsCache (fullAddress "A" "D" "S" "C") = some (35, 139)
    ∧ get_coords bC7w sC7w "A" "D" "S" "C" = (some (35, 139), sC7w) :=
  C7_success_cached_and_reused bC7w s0 "A" "D" "S" "C" (35, 139) sC7w rfl

/-- C7 counterexample: a no-match resolution is not cached, so the repeated
identical request invokes the forward geocoding service a second time — the
trace records two forward calls for the same address string, refuting
"at most once per distinct address string". -/
theorem C7_counterexample :
    sC7b.trace = [.forwardCall (fullAddress "A" "D" "S" "C"),
                  .forwardCall (fullAddress "A" "D" "S" "C")] := rfl

/-- C8 (amended): a facility's distance is present iff both reference
coordinates are supplied AND truthy — Python's `if ref_lat and ref_lon`
treats `0.0` as absent — in which case it is the great-circle distance in
kilometers from the reference point to the facility's coordinates. -/
theorem C8_distance_iff_truthy_reference (b : Backend) (s : GeoState)
    (nodes : List Node) (found_in : String) (ref_lat ref_lon : Option Rat)
    (fs : List Facility) (s' : GeoState)
    (h : node_to_medical_facility b s nodes found_in ref_lat ref_lon = (fs, s')) :
    ∀ f ∈ fs, f.distance =
      if isTruthy ref_lat && isTruthy ref_lon then
        some (b.geodesicKm (ref_lat.getD 0, ref_lon.getD 0) (f.lat, f.lon))
      else none := by
  intro f hf
  obtain ⟨i, hi⟩ := List.mem_iff_getElem?.mp hf
  simp only [node_to_medical_facility] at h
  have hfs : (geocodePass b s
      ((nodes.filter (fun n => (derivedAddress n).isNone)).map (fun n => (n.lat, n.lon)))
      (nodes.map (mkFacility b found_in ref_lat ref_lon))).1 = fs := by
    rw [h]
  have hag := geocodePass_agrees b
    ((nodes.filter (fun n => (derivedAddress n).isNone)).map (fun n => (n.lat, n.lon)))
    s (nodes.map (mkFacility b found_in ref_lat ref_lon)) i
  rw [hfs, hi, List.getElem?_map] at hag
  cases hn : nodes[i]? with
  | none => rw [hn] at hag; exact absurd hag (by simp [optAgrees])
  | some n =>
    rw [hn] at hag
    obtain ⟨g, hg, hagr⟩ := optAgrees_some hag
    obtain rfl : f = g := by simpa using hg
    have hd := hagr.2.2.2.2.2.1
    have hlat := hagr.2.2.1
    have hlon := hagr.2.2.2.1
    rw [hd, hlat, hlon]
    simp [mkFacility]

/-- Witness for C8: both reference coordinates supplied and non-zero. -/
theorem C8_witness :
    fC8.distance =
      if isTruthy (some 1) && isTruthy (some 2) then
        some (bC8.geodesicKm ((some (1 : Rat)).getD 0, (some (2 : Rat)).getD 0)
          (fC8.lat, fC8.lon))
      else none :=
  C8_distance_iff_truthy_reference bC8 s0 [nC8] "L" (some 1) (some 2) fsC8 sC8 rfl
    fC8 (by decide)

/-- C8 counterexample: both reference coordinates ARE supplied (0 and 10),
yet no distance is computed, because `0.0` is falsy in
`if ref_lat and ref_lon` — refuting "present iff both are supplied". -/
theorem C8_counterexample :
    (node_to_medical_facility bC8 s0 [nC8] "L" (some 0) (some 10)).1.map
      Facility.distance = [none] := rfl

/-- C6 (amended): on a reverse-cache miss the service's answer — the
resolved address on success, the synthesized `"Coordinates: (lat, lon)"`
string on failure — is returned AND cached; and a facility whose node has no
derivable address ends enrichment with a non-null address PROVIDED no
earlier node in the batch carries the same exact coordinate pair: each
completed result is applied to the FIRST facility whose coordinate pair
equals the key (the loop `break`s), so with duplicated coordinates a later
facility can be left with a null address — see the counterexample. -/
theorem C6_reverse_geocode_enrichment (b : Backend) (s : GeoState)
    (coords : Rat × Rat) (a : String)
    (nodes : List Node) (found_in : String) (ref_lat ref_lon : Option Rat)
    (i : Nat) (n : Node)
    (hmiss : alookup s.revCache coords = none)
    (hn : nodes[i]? = some n)
    (hnoaddr : derivedAddress n = none)
    (hfirst : ∀ j m, j < i → nodes[j]? = some m → (m.lat, m.lon) ≠ (n.lat, n.lon)) :
    (b.revGeocode coords = .ok (some a) →
      fetch_reverse_geocode b s coords = ((coords, a),
        { s with revCache := (coords, a) :: s.revCache,
                 trace := s.trace ++ [.revCall coords.1 coords.2] }))
    ∧ (b.revGeocode coords = .error () →
      fetch_reverse_geocode b s coords =
        ((coords, coordString coords.1 coords.2),
          { s with revCache := (coords, coordString coords.1 coords.2) :: s.revCache,
                   trace := s.trace ++ [.revCall coords.1 coords.2] }))
    ∧ ∃ f, ((node_to_medical_facility b s nodes found_in ref_lat ref_lon).1)[i]?
          = some f
        ∧ f.address.isSome = true := by
  refine ⟨?_, ?_, ?_⟩
  · intro hok
    simp [fetch_reverse_geocode, hmiss, hok]
  · intro herr
    simp [fetch_reverse_geocode, hmiss, herr]
  · have hmem : (n.lat, n.lon) ∈
        (nodes.filter (fun m => (derivedAddress m).isNone)).map
          (fun m => (m.lat, m.lon)) := by
      refine List.mem_map.mpr ⟨n, ?_, rfl⟩
      exact List.mem_filter.mpr ⟨List.getElem?_mem hn, by simp [hnoaddr]⟩
    have hfs : (nodes.map (mkFacility b found_in ref_lat ref_lon))[i]? =
        some (mkFacility b found_in ref_lat ref_lon n) := by
      rw [List.getElem?_map, hn]
      rfl
    have hmain := geocodePass_first b
      ((nodes.filter (fun m => (derivedAddress m).isNone)).map
        (fun m => (m.lat, m.lon)))
      s (nodes.map (mkFacility b found_in ref_lat ref_lon))
      (n.lat, n.lon) i (mkFacility b found_in ref_lat ref_lon n)
      hmem hfs rfl ?_
    · simpa [node_to_medical_facility] using hmain
    · intro j g hj hg
      rw [List.getElem?_map] at hg
      cases hm : nodes[j]? with
      | none => rw [hm] at hg; exact absurd hg (by simp)
      | some m =>
        rw [hm] at hg
        have hgm : mkFacility b found_in ref_lat ref_lon m = g := by simpa using hg
        rw [← hgm]
        exact hfirst j m hj hm

/-- Witness for C6: a fresh cache, a resolving reverse geocoder and a single
node with no address tags. -/
theorem C6_witness :
    (bC6.revGeocode (5, 6) = .ok (some "Nice Street") →
      fetch_reverse_geocode bC6 s0 (5, 6) = (((5, 6), "Nice Street"),
        { s0 with revCache := ((5, 6), "Nice Street") :: s0.revCache,
                  trace := s0.trace ++ [.revCall 5 6] }))
    ∧ (bC6.revGeocode (5, 6) = .error () →
      fetch_reverse_geocode bC6 s0 (5, 6) =
        (((5, 6), coordString 5 6),
          { s0 with revCache := ((5, 6), coordString 5 6) :: s0.revCache,
                    trace := s0.trace ++ [.revCall 5 6] }))
    ∧ ∃ f, ((node_to_medical_facility bC6 s0 [nC6w] "L" none none).1)[0]? = some f
        ∧ f.address.isSome = true :=
  C6_reverse_geocode_enrichment bC6 s0 (5, 6) "Nice Street" [nC6w] "L" none none
    0 nC6w rfl rfl rfl (fun j m hj _ => absurd hj (Nat.not_lt_zero j))

/-- C6 counterexample: nodes A and B share exact coordinates; A carries a tag
address, B has none.  B's coordinates are reverse geocoded, but the result is
applied to the FIRST coordinate match — facility A, whose tag address is
overwritten — and facility B's address stays null, refuting "its address
field is a non-null string" and "applied to the matching facility
record(s)". -/
theorem C6_counterexample :
    (node_to_medical_facility bC6 s0 [nC6a, nC6b] "L" none none).1.map
      Facility.address = [some "Nice Street", none] := rfl

end MediFind
